import Mathlib

/-!
Shallow embedding of the order/payment core of a small Flask e-shop
(`app/models.py`, `app/api/routes.py`, `app/admin/routes.py`).

Machine integers of the store (price, stock, quantity, money amounts) are
Python arbitrary-precision ints, embedded as `Int`.  Statuses are the string
literals the code uses.  The relational store is a record of lists; a SQL
`UPDATE` of the row found by `.first()` is modelled by `updateFirst`.
External effects (the payment gateway, the e-mail sender) are modelled as
boolean inputs saying whether the call succeeds, and the handlers additionally
report how many e-mail send attempts they made.
-/

namespace Eshop

/-- Rows of `Product` (`app/models.py`): the columns the order/payment core reads. -/
structure Product where
  id : String
  name : String
  slug : String
  price : Int
  stock : Int
  category : String
  visible : Bool
deriving DecidableEq, Repr

/-- Rows of `OrderItem` (`app/models.py`): `product_id` is nullable (`SET NULL` on
product deletion). -/
structure OrderItem where
  quantity : Int
  price_at_time : Int
  product_name : String
  product_id : Option String
deriving DecidableEq, Repr

/-- Rows of `Order` (`app/models.py`), with the owned `items` inlined. -/
structure Order where
  id : String
  order_number : String
  status : String
  customer_name : String
  customer_email : String
  shipping_address : String
  subtotal : Int
  shipping_cost : Int
  total : Int
  stripe_payment_intent_id : Option String
  confirmation_sent : Bool
  shipping_notified : Bool
  items : List OrderItem
deriving DecidableEq, Repr

/-- The `ShopSettings` singleton row (`app/models.py`). -/
structure ShopSettings where
  shop_name : String
  description : String
  currency : String
  shipping_fee : Int
deriving DecidableEq, Repr

/-- The relational store: product table, order table (items inlined),
and the optional settings singleton (`ShopSettings.query.first()`). -/
structure Store where
  products : List Product
  orders : List Order
  settings : Option ShopSettings
deriving DecidableEq, Repr

/-- Mutating the row returned by `query.filter_by(...).first()`: replace the
first list element satisfying `p` by its image under `f`. -/
def updateFirst {α : Type} (p : α → Bool) (f : α → α) : List α → List α
  | [] => []
  | x :: xs => if p x then f x :: xs else x :: updateFirst p f xs

/-- One iteration of the stock-decrement loop in `stripe_webhook`
(`app/api/routes.py` lines 149-153): if the item still references a product,
that product's stock becomes `max(0, stock - quantity)`. -/
def decrementStock (products : List Product) (item : OrderItem) : List Product :=
  match item.product_id with
  | none => products
  | some pid =>
      products.map fun p =>
        if p.id == pid then { p with stock := max 0 (p.stock - item.quantity) } else p

/-- One iteration of the restock loop in `order_refund`
(`app/admin/routes.py` lines 217-221): add the item quantity back. -/
def restock (products : List Product) (item : OrderItem) : List Product :=
  match item.product_id with
  | none => products
  | some pid =>
      products.map fun p =>
        if p.id == pid then { p with stock := p.stock + item.quantity } else p

/-- Row predicate used by the webhook's
`Order.query.filter_by(stripe_payment_intent_id=pi["id"]).first()`. -/
def piMatch (piId : String) (o : Order) : Bool :=
  o.stripe_payment_intent_id == some piId

/-- Embedding of `stripe_webhook` (`app/api/routes.py` lines 125-167) after signature
verification succeeded, on an event of type `eventType` whose payment-intent
object has id `piId`.  `emailOk` says whether `send_order_confirmation`
raises.  Returns the new store and the number of confirmation-email attempts
(0 or 1). -/
def stripeWebhook (store : Store) (eventType piId : String) (emailOk : Bool) :
    Store × Nat :=
  if eventType == "payment_intent.succeeded" then
    match store.orders.find? (piMatch piId) with
    | none => (store, 0)
    | some order =>
        if order.status == "PENDING" then
          let order' : Order :=
            { order with
                status := "PAID",
                confirmation_sent := if emailOk then true else order.confirmation_sent }
          ({ store with
               orders := updateFirst (piMatch piId) (fun _ => order') store.orders,
               products := order.items.foldl decrementStock store.products },
           1)
        else (store, 0)
  else (store, 0)

/-- A sequence of verified webhook deliveries: each event is
(type, payment-intent id, e-mail success). -/
def applyWebhooks (store : Store) (evs : List (String × String × Bool)) : Store :=
  evs.foldl (fun s e => (stripeWebhook s e.1 e.2.1 e.2.2).1) store

/-! ## Checkout (`create_payment_intent`, `app/api/routes.py` lines 42-122) -/

/-- One `{productId, quantity}` entry of the request's `items` list. -/
structure CartItem where
  id : String
  quantity : Int
deriving DecidableEq, Repr

/-- The request's `customer` object; a missing or empty `name`/`email`
(Python falsiness) is embedded as the empty string. -/
structure Customer where
  name : String
  email : String
deriving DecidableEq, Repr

/-- The checkout request body. -/
structure CheckoutInput where
  items : List CartItem
  customer : Customer
deriving DecidableEq, Repr

/-- One entry of the handler's `order_items` accumulator
(lines 75-82): the snapshot taken at validation time. -/
structure ValidatedItem where
  product_id : String
  product_name : String
  price_at_time : Int
  quantity : Int
deriving DecidableEq, Repr

/-- The outcome of `create_payment_intent`: one of the 400 error bodies, a
gateway failure (the Stripe call raised), or the success payload; on success
the created order and the currency passed to the gateway are reported. -/
inductive CheckoutOutcome where
  | invalidRequest
  | productNotFound (id : String)
  | insufficientStock (name : String) (available : Int)
  | gatewayError
  | ok (order : Order) (currency : String)
deriving DecidableEq, Repr

/-- The two 400 errors the validation loop can produce (lines 66 and 68-73). -/
inductive CheckoutErr where
  | productNotFound (id : String)
  | insufficientStock (name : String) (available : Int)
deriving DecidableEq, Repr

/-- The response body a validation-loop error turns into. -/
def errOutcome : CheckoutErr → CheckoutOutcome
  | .productNotFound i => .productNotFound i
  | .insufficientStock n a => .insufficientStock n a

/-- Embedding of `product_map.get(item["id"])`: the query selects products with
`id ∈ product_ids` and `visible == True`; ids are primary keys. -/
def findVisible (products : List Product) (i : String) : Option Product :=
  products.find? fun p => p.id == i && p.visible

/-- The validation loop of `create_payment_intent` (lines 63-82): walk the
items in request order; per item, a missing/non-visible product is reported
before that item's stock check; accumulate the subtotal and the snapshots. -/
def processItems (lookup : String → Option Product) :
    List CartItem → Except CheckoutErr (Int × List ValidatedItem)
  | [] => .ok (0, [])
  | item :: rest =>
      match lookup item.id with
      | none => .error (.productNotFound item.id)
      | some p =>
          if p.stock < item.quantity then
            .error (.insufficientStock p.name p.stock)
          else
            match processItems lookup rest with
            | .error e => .error e
            | .ok (sub, vs) =>
                .ok (p.price * item.quantity + sub,
                     ⟨p.id, p.name, p.price, item.quantity⟩ :: vs)

/-- Embedding of `settings.shipping_fee if settings else 500` (line 86). -/
def shippingFeeOf : Option ShopSettings → Int
  | some s => s.shipping_fee
  | none => 500

/-- Embedding of `settings.currency if settings else "usd"` (line 87). -/
def currencyOf : Option ShopSettings → String
  | some s => s.currency
  | none => "usd"

/-- The `{id, client_secret}` object Stripe returns for a payment intent. -/
structure Intent where
  id : String
  client_secret : String
deriving DecidableEq, Repr

/-- Embedding of `create_payment_intent` (lines 42-122).  `orderId` and `orderNum` stand for
the generated `Order.id` and `generate_order_number()`; `intent` is the
gateway's answer (`none` models the Stripe call raising, in which case nothing
is committed and the request fails).  Returns the outcome and the store. -/
def checkout (store : Store) (input : CheckoutInput)
    (orderId orderNum : String) (intent : Option Intent) :
    CheckoutOutcome × Store :=
  if input.items.isEmpty || input.customer.name == "" || input.customer.email == "" then
    (.invalidRequest, store)
  else
    match processItems (findVisible store.products) input.items with
    | .error e => (errOutcome e, store)
    | .ok (subtotal, vitems) =>
        let shipping_cost := shippingFeeOf store.settings
        let currency := currencyOf store.settings
        let total := subtotal + shipping_cost
        match intent with
        | none => (.gatewayError, store)
        | some it =>
            let order : Order :=
              { id := orderId
                order_number := orderNum
                status := "PENDING"
                customer_name := input.customer.name
                customer_email := input.customer.email
                shipping_address := ""
                subtotal := subtotal
                shipping_cost := shipping_cost
                total := total
                stripe_payment_intent_id := some it.id
                confirmation_sent := false
                shipping_notified := false
                items := vitems.map fun v =>
                  ⟨v.quantity, v.price_at_time, v.product_name, some v.product_id⟩ }
            (.ok order currency, { store with orders := store.orders ++ [order] })

/-! ## Admin order routes (`app/admin/routes.py`) -/

/-- Row predicate for `Order.query.get_or_404(id)`. -/
def idMatch (oid : String) (o : Order) : Bool :=
  o.id == oid

/-- The status strings `order_status` accepts (line 186). -/
def validStatuses : List String :=
  ["PENDING", "PAID", "SHIPPED", "DELIVERED", "CANCELLED", "REFUNDED"]

/-- Embedding of `order_status` (`app/admin/routes.py` lines 179-199).  `emailOk` says
whether `send_shipping_notification` raises.  Returns the new store and the
number of shipping-email attempts (0 or 1). -/
def orderStatus (store : Store) (oid newStatus : String) (emailOk : Bool) :
    Store × Nat :=
  match store.orders.find? (idMatch oid) with
  | none => (store, 0)
  | some order =>
      if validStatuses.contains newStatus then
        let o1 : Order := { order with status := newStatus }
        if newStatus == "SHIPPED" && !o1.shipping_notified then
          let o2 : Order :=
            { o1 with shipping_notified := if emailOk then true else o1.shipping_notified }
          ({ store with orders := updateFirst (idMatch oid) (fun _ => o2) store.orders }, 1)
        else
          ({ store with orders := updateFirst (idMatch oid) (fun _ => o1) store.orders }, 0)
      else (store, 0)

/-- The outcome of `order_refund`: the flashed rejection reasons, the 404, a
gateway failure, or success carrying the payment-intent reference the gateway
refund was called with. -/
inductive RefundResult where
  | orderMissing
  | noPayment
  | alreadyRefunded
  | gatewayFailed
  | success (piId : String)
deriving DecidableEq, Repr

/-- Embedding of `order_refund` (`app/admin/routes.py` lines 202-227).  `gatewayOk` says
whether `stripe.Refund.create` succeeds; when it raises, nothing after it in
the `try` block runs and no change is committed. -/
def orderRefund (store : Store) (oid : String) (gatewayOk : Bool) :
    RefundResult × Store :=
  match store.orders.find? (idMatch oid) with
  | none => (.orderMissing, store)
  | some order =>
      match order.stripe_payment_intent_id with
      | none => (.noPayment, store)
      | some pi =>
          if order.status == "REFUNDED" then (.alreadyRefunded, store)
          else if gatewayOk then
            (.success pi,
             { store with
                 products := order.items.foldl restock store.products,
                 orders := updateFirst (idMatch oid)
                   (fun _ => { order with status := "REFUNDED" }) store.orders })
          else (.gatewayFailed, store)

/-- The dashboard's revenue figure (`app/admin/routes.py` lines 37-39):
sum of `total` over orders whose status is not in `("PENDING", "CANCELLED")`. -/
def totalRevenue (store : Store) : Int :=
  ((store.orders.filter fun o =>
      !(o.status == "PENDING" || o.status == "CANCELLED")).map fun o => o.total).sum

/-- Modelled from the spec: revenue as the spec's words describe it, the sum of
the total field over exactly those orders whose status is neither PENDING nor
CANCELLED; to be compared with `totalRevenue`, which is read off the code. -/
def specRevenue (store : Store) : Int :=
  ((store.orders.filter fun o =>
      decide (o.status ≠ "PENDING" ∧ o.status ≠ "CANCELLED")).map fun o => o.total).sum

/-- Total quantity the refund loop adds back to the product with id `i`:
the items still referencing `i`, summed. -/
def restockQty (items : List OrderItem) (i : String) : Int :=
  ((items.filter fun it => it.product_id == some i).map fun it => it.quantity).sum

/-! ## Concrete stores used by the witness theorems -/

/-- Demo line item: three units of product `pA` at price 100. -/
def demoItem : OrderItem := ⟨3, 100, "Alpha", some "pA"⟩

/-- Demo PENDING order holding `demoItem`, payment intent "pi1". -/
def demoOrder : Order :=
  ⟨"o1", "ORD-1", "PENDING", "Al", "a@b.c", "", 300, 500, 800,
   some "pi1", false, false, [demoItem]⟩

/-- Demo visible product with stock 10. -/
def demoProduct : Product := ⟨"pA", "Alpha", "alpha", 100, 10, "", true⟩

/-- Demo store: one product, one pending order, no settings row. -/
def demoStore : Store := ⟨[demoProduct], [demoOrder], none⟩

/-- Demo order without a payment-intent reference. -/
def demoOrderNoPi : Order :=
  ⟨"o2", "ORD-2", "PAID", "Bo", "b@b.c", "", 100, 500, 600,
   none, false, false, []⟩

/-- Demo order that is already REFUNDED. -/
def demoOrderRefunded : Order :=
  ⟨"o3", "ORD-3", "REFUNDED", "Cy", "c@b.c", "", 100, 500, 600,
   some "pi3", false, false, []⟩

/-- Demo store for the refund rejection cases. -/
def demoStoreRefund : Store :=
  ⟨[demoProduct], [demoOrderNoPi, demoOrderRefunded], none⟩

/-- Demo settings row with a 750 fee in euro. -/
def demoSettings : ShopSettings := ⟨"Shop", "d", "eur", 750⟩

/-- Demo store that has a settings row. -/
def demoStoreWithSettings : Store := ⟨[demoProduct], [], some demoSettings⟩

/-- The order created by the claim-C9 failing input: the client-sent quantity
0 passes validation (stock 10 < 0 is false) and is persisted unchanged. -/
def zeroQtyOrder : Order :=
  ⟨"o9", "ORD-9", "PENDING", "Al", "a@b.c", "", 0, 500, 500,
   some "pi9", false, false, [⟨0, 100, "Alpha", some "pA"⟩]⟩

/-- A PAID variant of the demo order, for the C10 witness. -/
def demoPaidOrder : Order :=
  ⟨"o1", "ORD-1", "PAID", "Al", "a@b.c", "", 300, 500, 800,
   some "pi1", false, false, [demoItem]⟩

/-- Demo store holding the PAID order. -/
def demoPaidStore : Store := ⟨[demoProduct], [demoPaidOrder], none⟩

/-! ## Helper lemmas -/

lemma find?_updateFirst {α : Type} (p : α → Bool) (f : α → α)
    (hf : ∀ x, p x = true → p (f x) = true) :
    ∀ l : List α, (updateFirst p f l).find? p = (l.find? p).map f := by
  intro l
  induction l with
  | nil => simp [updateFirst]
  | cons x xs ih =>
      by_cases hx : p x = true
      · simp [updateFirst, hx, hf x hx, List.find?_cons]
      · rw [Bool.not_eq_true] at hx
        simp [updateFirst, hx, List.find?_cons, ih]

lemma updateFirst_of_fix {α : Type} (p : α → Bool) (f : α → α) :
    ∀ l : List α, (∀ x, l.find? p = some x → f x = x) → updateFirst p f l = l := by
  intro l
  induction l with
  | nil => intro _; rfl
  | cons x xs ih =>
      intro h
      by_cases hx : p x = true
      · have hfx : f x = x := h x (by simp [List.find?_cons, hx])
        simp [updateFirst, hx, hfx]
      · rw [Bool.not_eq_true] at hx
        have h' : ∀ y, xs.find? p = some y → f y = y := by
          intro y hy
          exact h y (by simp [List.find?_cons, hx, hy])
        simp [updateFirst, hx, ih h']

lemma decrementStock_nonneg (ps : List Product) (it : OrderItem)
    (h : ∀ p ∈ ps, 0 ≤ p.stock) :
    ∀ p ∈ decrementStock ps it, 0 ≤ p.stock := by
  unfold decrementStock
  cases it.product_id with
  | none => exact h
  | some pid =>
      intro p hp
      rcases List.mem_map.mp hp with ⟨q, hq, rfl⟩
      split
      · exact le_max_left 0 _
      · exact h q hq

lemma foldl_decrementStock_nonneg (items : List OrderItem) (ps : List Product)
    (h : ∀ p ∈ ps, 0 ≤ p.stock) :
    ∀ p ∈ items.foldl decrementStock ps, 0 ≤ p.stock := by
  induction items generalizing ps with
  | nil => exact h
  | cons it items ih =>
      rw [List.foldl_cons]
      exact ih _ (decrementStock_nonneg ps it h)

lemma stripeWebhook_stock_nonneg (store : Store) (t piId : String) (e : Bool)
    (h : ∀ p ∈ store.products, 0 ≤ p.stock) :
    ∀ p ∈ (stripeWebhook store t piId e).1.products, 0 ≤ p.stock := by
  unfold stripeWebhook
  by_cases ht : (t == "payment_intent.succeeded") = true
  · rw [ht]
    simp only [if_true]
    cases hfind : store.orders.find? (piMatch piId) with
    | none => exact h
    | some o =>
        by_cases hs : (o.status == "PENDING") = true
        · simp only [hs, if_true]
          exact foldl_decrementStock_nonneg o.items store.products h
        · rw [Bool.not_eq_true] at hs
          simp only [hs]
          exact h
  · rw [Bool.not_eq_true] at ht
    simp only [ht]
    exact h

/-! ## Claim theorems -/

/-- Claim C1: a verified `payment_intent.succeeded` event whose payment-intent
id matches an order that is not PENDING leaves the store (order status, every
product's stock, the confirmation flag) unchanged and attempts no e-mail;
hence delivering the same event twice yields exactly one e-mail attempt and no
further state change (so exactly one stock-decrement pass). -/
theorem webhook_replay_idempotent (store : Store) (piId : String) (o : Order)
    (e1 e2 : Bool)
    (hfind : store.orders.find? (piMatch piId) = some o) :
    (o.status ≠ "PENDING" →
        stripeWebhook store "payment_intent.succeeded" piId e1 = (store, 0))
    ∧ (o.status = "PENDING" →
        (stripeWebhook store "payment_intent.succeeded" piId e1).2 = 1 ∧
        stripeWebhook (stripeWebhook store "payment_intent.succeeded" piId e1).1
            "payment_intent.succeeded" piId e2
          = ((stripeWebhook store "payment_intent.succeeded" piId e1).1, 0)) := by
  have hpo : piMatch piId o = true := List.find?_some hfind
  constructor
  · intro hne
    have hs : (o.status == "PENDING") = false := by
      simp [hne]
    unfold stripeWebhook
    simp [hfind, hs]
  · intro hp
    have hs : (o.status == "PENDING") = true := by simp [hp]
    have hrun :
        stripeWebhook store "payment_intent.succeeded" piId e1
          = ({ store with
                 orders := updateFirst (piMatch piId)
                   (fun _ => { o with
                       status := "PAID",
                       confirmation_sent := e1 || o.confirmation_sent }) store.orders,
                 products := o.items.foldl decrementStock store.products },
             1) := by
      unfold stripeWebhook
      simp [hfind, hs]
    refine ⟨by rw [hrun], ?_⟩
    rw [hrun]
    have hpres : ∀ x : Order, piMatch piId x = true →
        piMatch piId
          ((fun _ => { o with
              status := "PAID",
              confirmation_sent := e1 || o.confirmation_sent }) x)
          = true := by
      intro x _
      exact hpo
    have hfind2 :
        (updateFirst (piMatch piId)
            (fun _ => { o with
                status := "PAID",
                confirmation_sent := e1 || o.confirmation_sent })
            store.orders).find? (piMatch piId)
          = some { o with
              status := "PAID",
              confirmation_sent := e1 || o.confirmation_sent } := by
      rw [find?_updateFirst _ _ hpres store.orders, hfind]
      rfl
    unfold stripeWebhook
    simp [hfind2]

theorem webhook_replay_idempotent_witness :
    (stripeWebhook demoStore "payment_intent.succeeded" "pi1" true).2 = 1 ∧
    stripeWebhook (stripeWebhook demoStore "payment_intent.succeeded" "pi1" true).1
        "payment_intent.succeeded" "pi1" false
      = ((stripeWebhook demoStore "payment_intent.succeeded" "pi1" true).1, 0) :=
  (webhook_replay_idempotent demoStore "pi1" demoOrder true false (by rfl)).2 (by rfl)

/-- Claim C2: starting from non-negative stocks, any sequence of verified
webhook deliveries leaves every product's stock non-negative; each decrement
of a referenced product replaces stock `s` by `max 0 (s - quantity)`. -/
theorem stock_nonneg_after_webhooks (store : Store)
    (evs : List (String × String × Bool))
    (h : ∀ p ∈ store.products, 0 ≤ p.stock) :
    (∀ p ∈ (applyWebhooks store evs).products, 0 ≤ p.stock)
    ∧ (∀ (ps : List Product) (it : OrderItem) (pid : String),
         it.product_id = some pid →
         decrementStock ps it
           = ps.map fun p =>
               if p.id == pid then { p with stock := max 0 (p.stock - it.quantity) }
               else p) := by
  constructor
  · induction evs generalizing store with
    | nil => exact h
    | cons e evs ih =>
        have h1 := stripeWebhook_stock_nonneg store e.1 e.2.1 e.2.2 h
        exact ih _ h1
  · intro ps it pid hpid
    unfold decrementStock
    rw [hpid]

theorem stock_nonneg_after_webhooks_witness :
    0 ≤ (Product.mk "pA" "Alpha" "alpha" 100 7 "" true).stock :=
  (stock_nonneg_after_webhooks demoStore
      [("payment_intent.succeeded", "pi1", true),
       ("payment_intent.succeeded", "pi1", true)]
      (by decide)).1
    ⟨"pA", "Alpha", "alpha", 100, 7, "", true⟩ (by decide)

/-- Claim C7: setting SHIPPED on an order whose shipping flag is false (and
whose notification e-mail goes through) makes exactly one e-mail attempt and
sets the flag; setting SHIPPED again leaves the store unchanged and makes no
second attempt. -/
theorem shipped_email_once (store : Store) (oid : String) (o : Order) (e2 : Bool)
    (hfind : store.orders.find? (idMatch oid) = some o)
    (hflag : o.shipping_notified = false) :
    (orderStatus store oid "SHIPPED" true).2 = 1
    ∧ (orderStatus store oid "SHIPPED" true).1.orders.find? (idMatch oid)
        = some { o with status := "SHIPPED", shipping_notified := true }
    ∧ orderStatus (orderStatus store oid "SHIPPED" true).1 oid "SHIPPED" e2
        = ((orderStatus store oid "SHIPPED" true).1, 0) := by
  have hid : idMatch oid o = true := List.find?_some hfind
  have hrun :
      orderStatus store oid "SHIPPED" true
        = ({ store with
               orders := updateFirst (idMatch oid)
                 (fun _ => { o with status := "SHIPPED", shipping_notified := true })
                 store.orders },
           1) := by
    unfold orderStatus
    simp [hfind, hflag, validStatuses]
  have hpres : ∀ x : Order, idMatch oid x = true →
      idMatch oid
        ((fun _ => { o with status := "SHIPPED", shipping_notified := true }) x)
        = true := by
    intro x _
    exact hid
  have hfind2 :
      (updateFirst (idMatch oid)
          (fun _ => { o with status := "SHIPPED", shipping_notified := true })
          store.orders).find? (idMatch oid)
        = some { o with status := "SHIPPED", shipping_notified := true } := by
    rw [find?_updateFirst _ _ hpres store.orders, hfind]
    rfl
  refine ⟨by rw [hrun], by rw [hrun]; exact hfind2, ?_⟩
  rw [hrun]
  have hfix :
      updateFirst (idMatch oid)
          (fun _ => { o with status := "SHIPPED", shipping_notified := true })
          (updateFirst (idMatch oid)
            (fun _ => { o with status := "SHIPPED", shipping_notified := true })
            store.orders)
        = updateFirst (idMatch oid)
            (fun _ => { o with status := "SHIPPED", shipping_notified := true })
            store.orders := by
    apply updateFirst_of_fix
    intro x hx
    rw [hfind2] at hx
    exact Option.some.inj hx
  unfold orderStatus
  simp [hfind2, validStatuses, hfix]

theorem shipped_email_once_witness :
    (orderStatus demoStore "o1" "SHIPPED" true).2 = 1
    ∧ (orderStatus demoStore "o1" "SHIPPED" true).1.orders.find? (idMatch "o1")
        = some { demoOrder with status := "SHIPPED", shipping_notified := true }
    ∧ orderStatus (orderStatus demoStore "o1" "SHIPPED" true).1 "o1" "SHIPPED" false
        = ((orderStatus demoStore "o1" "SHIPPED" true).1, 0) :=
  shipped_email_once demoStore "o1" demoOrder false (by rfl) (by rfl)

/-- Claim C5: the admin refund is rejected with the store unchanged when the
order has no payment-intent reference, or is already REFUNDED; and a gateway
failure aborts with the store unchanged, surfacing the failure. -/
theorem refund_rejections (store : Store) (oid : String) (o : Order) (gw : Bool)
    (hfind : store.orders.find? (idMatch oid) = some o) :
    (o.stripe_payment_intent_id = none →
        orderRefund store oid gw = (.noPayment, store))
    ∧ (∀ pi, o.stripe_payment_intent_id = some pi → o.status = "REFUNDED" →
        orderRefund store oid gw = (.alreadyRefunded, store))
    ∧ (∀ pi, o.stripe_payment_intent_id = some pi → o.status ≠ "REFUNDED" →
        orderRefund store oid false = (.gatewayFailed, store)) := by
  refine ⟨?_, ?_, ?_⟩
  · intro hnone
    unfold orderRefund
    simp [hfind, hnone]
  · intro pi hpi hrf
    unfold orderRefund
    simp [hfind, hpi, hrf]
  · intro pi hpi hrf
    have hs : (o.status == "REFUNDED") = false := by simp [hrf]
    unfold orderRefund
    simp [hfind, hpi, hs]

lemma map_congr_fun {α β : Type} (f g : α → β) (h : ∀ a, f a = g a) (l : List α) :
    l.map f = l.map g := by
  rw [funext h]

lemma restockQty_nil (i : String) : restockQty [] i = 0 := rfl

lemma restockQty_cons (it : OrderItem) (items : List OrderItem) (i : String) :
    restockQty (it :: items) i
      = (if it.product_id == some i then it.quantity else 0) + restockQty items i := by
  unfold restockQty
  rw [List.filter_cons]
  by_cases hc : (it.product_id == some i) = true
  · simp [hc]
  · rw [Bool.not_eq_true] at hc
    simp [hc]

lemma foldl_restock_eq (items : List OrderItem) (ps : List Product) :
    items.foldl restock ps
      = ps.map fun p => { p with stock := p.stock + restockQty items p.id } := by
  induction items generalizing ps with
  | nil =>
      rw [List.foldl_nil]
      have h : ∀ p : Product,
          p = { p with stock := p.stock + restockQty [] p.id } := by
        intro p
        simp [restockQty_nil]
      calc ps = ps.map id := (List.map_id ps).symm
        _ = ps.map fun p => { p with stock := p.stock + restockQty [] p.id } :=
            map_congr_fun _ _ h ps
  | cons it items ih =>
      rw [List.foldl_cons, ih]
      unfold restock
      cases hpid : it.product_id with
      | none =>
          apply map_congr_fun
          intro p
          simp [restockQty_cons, hpid]
      | some pid =>
          rw [List.map_map]
          apply map_congr_fun
          intro p
          by_cases hidp : (p.id == pid) = true
          · have hpe : p.id = pid := by simpa using hidp
            have hsome : (it.product_id == some p.id) = true := by
              rw [hpid, hpe]
              simp
            simp only [Function.comp_apply, hidp, if_true, restockQty_cons, hsome]
            simp [add_assoc]
          · rw [Bool.not_eq_true] at hidp
            have hne : p.id ≠ pid := by simpa using hidp
            have hsome : (it.product_id == some p.id) = false := by
              rw [hpid]
              simp
              exact fun hc => hne hc.symm
            simp only [Function.comp_apply, hidp, Bool.false_eq_true, if_false,
              restockQty_cons, hsome]
            simp

lemma orderRefund_success_eq (store : Store) (oid : String) (o : Order)
    (pi : String)
    (hfind : store.orders.find? (idMatch oid) = some o)
    (hpi : o.stripe_payment_intent_id = some pi)
    (hst : o.status ≠ "REFUNDED") :
    orderRefund store oid true
      = (.success pi,
         { store with
             products := store.products.map
               fun p => { p with stock := p.stock + restockQty o.items p.id },
             orders := updateFirst (idMatch oid)
               (fun _ => { o with status := "REFUNDED" }) store.orders }) := by
  have hs : (o.status == "REFUNDED") = false := by simp [hst]
  unfold orderRefund
  simp [hfind, hpi, hs, foldl_restock_eq]

/-- Claim C6: a successful admin refund on an order with a stored
payment-intent reference and status not REFUNDED calls the gateway with that
reference, adds each live line item's quantity back onto its product's stock
(unconditionally, whatever the prior status), and sets the order REFUNDED. -/
theorem refund_success (store : Store) (oid : String) (o : Order) (pi : String)
    (hfind : store.orders.find? (idMatch oid) = some o)
    (hpi : o.stripe_payment_intent_id = some pi)
    (hst : o.status ≠ "REFUNDED") :
    orderRefund store oid true
      = (.success pi,
         { store with
             products := store.products.map
               fun p => { p with stock := p.stock + restockQty o.items p.id },
             orders := updateFirst (idMatch oid)
               (fun _ => { o with status := "REFUNDED" }) store.orders }) :=
  orderRefund_success_eq store oid o pi hfind hpi hst

theorem refund_success_witness :
    orderRefund demoStore "o1" true
      = (.success "pi1",
         { demoStore with
             products := demoStore.products.map
               fun p => { p with stock := p.stock + restockQty demoOrder.items p.id },
             orders := updateFirst (idMatch "o1")
               (fun _ => { demoOrder with status := "REFUNDED" }) demoStore.orders }) :=
  refund_success demoStore "o1" demoOrder "pi1" (by rfl) (by rfl) (by decide)

theorem refund_rejections_witness :
    orderRefund demoStoreRefund "o2" true = (.noPayment, demoStoreRefund)
    ∧ orderRefund demoStoreRefund "o3" true = (.alreadyRefunded, demoStoreRefund)
    ∧ orderRefund demoStore "o1" false = (.gatewayFailed, demoStore) :=
  ⟨(refund_rejections demoStoreRefund "o2" demoOrderNoPi true (by rfl)).1 (by rfl),
   (refund_rejections demoStoreRefund "o3" demoOrderRefunded true (by rfl)).2.1
     "pi3" (by rfl) (by rfl),
   (refund_rejections demoStore "o1" demoOrder false (by rfl)).2.2
     "pi1" (by rfl) (by decide)⟩

lemma findVisible_id (products : List Product) (i : String) (p : Product)
    (h : findVisible products i = some p) : p.id = i := by
  have hp := List.find?_some h
  have hsplit := (Bool.and_eq_true _ _).mp hp
  exact eq_of_beq hsplit.1

lemma processItems_notFound (lookup : String → Option Product)
    (pre : List CartItem) (bad : CartItem) (rest : List CartItem)
    (hpre : ∀ x ∈ pre, ∃ p, lookup x.id = some p ∧ ¬ p.stock < x.quantity)
    (hbad : lookup bad.id = none) :
    processItems lookup (pre ++ bad :: rest)
      = .error (.productNotFound bad.id) := by
  induction pre with
  | nil => simp [processItems, hbad]
  | cons x pre ih =>
      rcases hpre x (by simp) with ⟨p, hp, hstk⟩
      have hrec := ih fun y hy => hpre y (by simp [hy])
      rw [List.cons_append]
      simp [processItems, hp, hstk, hrec]

/-- Counterexample to claim C3: with product `pA` ("Alpha", stock 1) visible
and items `[{pA, 5}, {pB, 1}]` where `pB` does not exist, checkout reports
insufficient stock for the earlier item, not NotFound for the missing id:
the three validation checks are not run phase-by-phase over the whole list. -/
theorem notFound_not_before_stock_check :
    checkout ⟨[⟨"pA", "Alpha", "alpha", 100, 1, "", true⟩], [], none⟩
        ⟨[⟨"pA", 5⟩, ⟨"pB", 1⟩], ⟨"Al", "a@b.c"⟩⟩ "o1" "ORD-1" (some ⟨"pi1", "sec"⟩)
      = (.insufficientStock "Alpha" 1,
         ⟨[⟨"pA", "Alpha", "alpha", 100, 1, "", true⟩], [], none⟩)
    ∧ CheckoutOutcome.insufficientStock "Alpha" 1 ≠ .productNotFound "pB" :=
  ⟨rfl, by decide⟩

/-- Claim C3, amended: validation is interleaved per item in request order —
for each item the not-found check precedes that item's stock check, so a
missing or non-visible product id is reported as NotFound naming that id
whenever every earlier item passes both of its checks (regardless of the
failing item's quantity and of anything after it); an earlier item's failure
is reported first. -/
theorem notFound_after_passing_items (store : Store) (customer : Customer)
    (pre : List CartItem) (bad : CartItem) (rest : List CartItem)
    (orderId orderNum : String) (intent : Option Intent)
    (hname : customer.name ≠ "") (hemail : customer.email ≠ "")
    (hpre : ∀ x ∈ pre, ∃ p, findVisible store.products x.id = some p
              ∧ ¬ p.stock < x.quantity)
    (hbad : findVisible store.products bad.id = none) :
    checkout store ⟨pre ++ bad :: rest, customer⟩ orderId orderNum intent
      = (.productNotFound bad.id, store) := by
  have hempty : (pre ++ bad :: rest).isEmpty = false := by
    cases pre <;> rfl
  have e2 : (customer.name == "") = false := by simp [hname]
  have e3 : (customer.email == "") = false := by simp [hemail]
  have hpe := processItems_notFound (findVisible store.products) pre bad rest hpre hbad
  unfold checkout
  simp [hempty, e2, e3, hpe, errOutcome]

theorem notFound_after_passing_items_witness :
    checkout ⟨[⟨"pA", "Alpha", "alpha", 100, 1, "", true⟩], [], none⟩
        ⟨[⟨"pA", 1⟩, ⟨"pB", 2⟩], ⟨"Al", "a@b.c"⟩⟩ "o1" "ORD-1" none
      = (.productNotFound "pB",
         ⟨[⟨"pA", "Alpha", "alpha", 100, 1, "", true⟩], [], none⟩) :=
  notFound_after_passing_items
    ⟨[⟨"pA", "Alpha", "alpha", 100, 1, "", true⟩], [], none⟩ ⟨"Al", "a@b.c"⟩
    [⟨"pA", 1⟩] ⟨"pB", 2⟩ [] "o1" "ORD-1" none
    (by decide) (by decide)
    (by
      intro x hx
      simp at hx
      subst hx
      exact ⟨⟨"pA", "Alpha", "alpha", 100, 1, "", true⟩, rfl, by decide⟩)
    rfl

/-- Claim C4: a checkout that fails — empty item list or missing name/email
(InvalidRequest), a missing/non-visible product (NotFound), insufficient
stock, or a gateway failure — returns the corresponding error and leaves the
store unchanged: no Order and no OrderItem is persisted. -/
theorem checkout_error_no_persist (store : Store) (input : CheckoutInput)
    (orderId orderNum : String) (intent : Option Intent) :
    ((input.items = [] ∨ input.customer.name = "" ∨ input.customer.email = "") →
        checkout store input orderId orderNum intent = (.invalidRequest, store))
    ∧ (input.items ≠ [] → input.customer.name ≠ "" → input.customer.email ≠ "" →
        ∀ e, processItems (findVisible store.products) input.items = .error e →
        checkout store input orderId orderNum intent = (errOutcome e, store))
    ∧ (∀ r s', checkout store input orderId orderNum intent = (r, s') →
        (∀ ord c, r ≠ .ok ord c) → s' = store) := by
  refine ⟨?_, ?_, ?_⟩
  · intro h
    unfold checkout
    rcases h with h | h | h <;> simp [h]
  · intro h1 h2 h3 e he
    have e1 : input.items.isEmpty = false := by
      cases hi : input.items with
      | nil => exact absurd hi h1
      | cons a l => rfl
    have e2 : (input.customer.name == "") = false := by simp [h2]
    have e3 : (input.customer.email == "") = false := by simp [h3]
    unfold checkout
    simp [e1, e2, e3, he]
  · intro r s' h hno
    unfold checkout at h
    split at h
    · injection h with hr hs
      exact hs.symm
    · split at h
      · injection h with hr hs
        exact hs.symm
      · split at h <;>
          simp only [Prod.mk.injEq] at h <;>
          first
            | exact h.2.symm
            | exact absurd h.1.symm (hno _ _)

theorem checkout_error_no_persist_witness :
    checkout demoStore ⟨[], ⟨"Al", "a@b.c"⟩⟩ "o1" "ORD-1" none
      = (.invalidRequest, demoStore)
    ∧ checkout demoStore ⟨[⟨"pA", 99⟩], ⟨"Al", "a@b.c"⟩⟩ "o1" "ORD-1" none
      = (.insufficientStock "Alpha" 10, demoStore)
    ∧ demoStore = demoStore :=
  ⟨(checkout_error_no_persist demoStore ⟨[], ⟨"Al", "a@b.c"⟩⟩ "o1" "ORD-1" none).1
      (Or.inl rfl),
   (checkout_error_no_persist demoStore ⟨[⟨"pA", 99⟩], ⟨"Al", "a@b.c"⟩⟩
        "o1" "ORD-1" none).2.1
      (by decide) (by decide) (by decide) (.insufficientStock "Alpha" 10) rfl,
   (checkout_error_no_persist demoStore ⟨[⟨"pA", 99⟩], ⟨"Al", "a@b.c"⟩⟩
        "o1" "ORD-1" none).2.2
      (.insufficientStock "Alpha" 10) demoStore rfl
      (fun ord c hc => CheckoutOutcome.noConfusion hc)⟩

lemma processItems_ok_spec (lookup : String → Option Product)
    (hlook : ∀ i p, lookup i = some p → p.id = i) :
    ∀ (items : List CartItem) (sub : Int) (vs : List ValidatedItem),
      processItems lookup items = .ok (sub, vs) →
      sub = (vs.map fun v => v.price_at_time * v.quantity).sum
      ∧ ∀ v ∈ vs, ∃ p, lookup v.product_id = some p
          ∧ v.price_at_time = p.price ∧ v.product_name = p.name := by
  intro items
  induction items with
  | nil =>
      intro sub vs h
      simp only [processItems, Except.ok.injEq, Prod.mk.injEq] at h
      obtain ⟨h1, h2⟩ := h
      subst h1
      subst h2
      exact ⟨rfl, by intro v hv; cases hv⟩
  | cons x items ih =>
      intro sub vs h
      simp only [processItems] at h
      cases hl : lookup x.id with
      | none => simp [hl] at h
      | some p =>
          rw [hl] at h
          simp only at h
          by_cases hstk : p.stock < x.quantity
          · rw [if_pos hstk] at h
            simp at h
          · rw [if_neg hstk] at h
            cases hr : processItems lookup items with
            | error e => simp [hr] at h
            | ok pair =>
                obtain ⟨sub', vs'⟩ := pair
                rw [hr] at h
                simp only [Except.ok.injEq, Prod.mk.injEq] at h
                obtain ⟨h1, h2⟩ := h
                subst h1
                subst h2
                obtain ⟨ihsum, ihmem⟩ := ih sub' vs' hr
                constructor
                · simp [ihsum]
                · intro v hv
                  rcases List.mem_cons.mp hv with hv | hv
                  · subst hv
                    refine ⟨p, ?_, rfl, rfl⟩
                    have hpid : p.id = x.id := hlook x.id p hl
                    show lookup p.id = some p
                    rw [hpid]
                    exact hl
                  · exact ihmem v hv

/-- Claim C8: on a checkout that passes validation, the created order's
subtotal is the sum over its items of (unit price at validation time ×
quantity), the shipping fee and the currency passed to the gateway come from
the settings singleton (falling back to 500 and "usd" when absent), and the
total is subtotal + shipping. -/
theorem checkout_totals (store : Store) (input : CheckoutInput)
    (orderId orderNum : String) (it : Intent) (order : Order) (ccy : String)
    (s' : Store)
    (h : checkout store input orderId orderNum (some it) = (.ok order ccy, s')) :
    order.subtotal = (order.items.map fun x => x.price_at_time * x.quantity).sum
    ∧ order.shipping_cost = shippingFeeOf store.settings
    ∧ ccy = currencyOf store.settings
    ∧ (store.settings = none → order.shipping_cost = 500 ∧ ccy = "usd")
    ∧ order.total = order.subtotal + order.shipping_cost
    ∧ ∀ x ∈ order.items, ∃ p, x.product_id = some p.id
        ∧ findVisible store.products p.id = some p
        ∧ x.price_at_time = p.price := by
  have hlook : ∀ i p, findVisible store.products i = some p → p.id = i :=
    fun i p hp => findVisible_id store.products i p hp
  unfold checkout at h
  split at h
  · injection h with hr hs
    exact CheckoutOutcome.noConfusion hr
  · split at h
    · rename_i e heq
      injection h with hr hs
      cases e <;> exact CheckoutOutcome.noConfusion hr
    · rename_i pair sub vs hpi
      obtain ⟨hsum, hmem⟩ := processItems_ok_spec (findVisible store.products)
        hlook input.items sub vs hpi
      simp only [Prod.mk.injEq, CheckoutOutcome.ok.injEq] at h
      obtain ⟨⟨hor, hc⟩, hst⟩ := h
      subst hor
      subst hc
      refine ⟨?_, rfl, rfl, fun hn => ⟨by rw [hn]; rfl, by rw [hn]; rfl⟩, rfl, ?_⟩
      · show sub = ((vs.map _).map _).sum
        rw [List.map_map]
        exact hsum
      · intro x hx
        rcases List.mem_map.mp hx with ⟨v, hv, rfl⟩
        rcases hmem v hv with ⟨p, hlk, hpr, hpn⟩
        have hpid : p.id = v.product_id := hlook v.product_id p hlk
        refine ⟨p, ?_, ?_, hpr⟩
        · show some v.product_id = some p.id
          rw [hpid]
        · rw [hpid]
          exact hlk

theorem checkout_totals_witness :
    let res := checkout demoStoreWithSettings ⟨[⟨"pA", 2⟩], ⟨"Al", "a@b.c"⟩⟩
      "o8" "ORD-8" (some ⟨"pi8", "sec"⟩)
    ∀ order ccy, res.1 = .ok order ccy →
      order.subtotal = (order.items.map fun x => x.price_at_time * x.quantity).sum := by
  intro res order ccy hres
  have h : checkout demoStoreWithSettings ⟨[⟨"pA", 2⟩], ⟨"Al", "a@b.c"⟩⟩
      "o8" "ORD-8" (some ⟨"pi8", "sec"⟩) = (.ok order ccy, res.2) := by
    rw [Prod.ext_iff]
    exact ⟨hres, rfl⟩
  exact (checkout_totals demoStoreWithSettings ⟨[⟨"pA", 2⟩], ⟨"Al", "a@b.c"⟩⟩
    "o8" "ORD-8" ⟨"pi8", "sec"⟩ order ccy res.2 h).1

/-- Claim C9 fails on the code: checkout performs no positivity check on the
requested quantity, so the input `items=[{pA, 0}]` is accepted and persists an
OrderItem with quantity 0, contradicting the data model's "positive integer". -/
theorem checkout_accepts_nonpositive_quantity :
    checkout demoStore ⟨[⟨"pA", 0⟩], ⟨"Al", "a@b.c"⟩⟩ "o9" "ORD-9"
        (some ⟨"pi9", "sec"⟩)
      = (.ok zeroQtyOrder "usd",
         { demoStore with orders := demoStore.orders ++ [zeroQtyOrder] })
    ∧ ¬ ∀ x ∈ zeroQtyOrder.items, 1 ≤ x.quantity :=
  ⟨rfl, by decide⟩

lemma sum_filter_updateFirst {α : Type} (q c : α → Bool) (t : α → Int)
    (f : α → α) (o : α) :
    ∀ l : List α, l.find? q = some o → c (f o) = c o → t (f o) = t o →
      (((updateFirst q f l).filter c).map t).sum = ((l.filter c).map t).sum := by
  intro l
  induction l with
  | nil =>
      intro h hc ht
      simp at h
  | cons x xs ih =>
      intro h hc ht
      by_cases hx : q x = true
      · have hox : x = o := by
          have hsome : some x = some o := by
            rw [← h]
            simp [List.find?_cons, hx]
          exact Option.some.inj hsome
        subst hox
        simp only [updateFirst, hx, if_true]
        rw [List.filter_cons, List.filter_cons, hc]
        by_cases hcx : c x = true
        · simp [hcx, ht]
        · rw [Bool.not_eq_true] at hcx
          simp [hcx]
      · rw [Bool.not_eq_true] at hx
        have h' : xs.find? q = some o := by
          rw [List.find?_cons] at h
          simpa [hx] using h
        simp only [updateFirst, hx, Bool.false_eq_true, if_false]
        rw [List.filter_cons, List.filter_cons]
        by_cases hcx : c x = true
        · simp [hcx, ih h' hc ht]
        · rw [Bool.not_eq_true] at hcx
          simp [hcx, ih h' hc ht]

/-- Claim C10: the dashboard's revenue figure is the sum of `total` over
exactly the orders whose status is neither PENDING nor CANCELLED; in
particular a successful refund of a PAID order leaves the reported revenue
unchanged — the now-REFUNDED order still counts. -/
theorem dashboard_revenue (store : Store) (oid : String) (o : Order)
    (pi : String)
    (hfind : store.orders.find? (idMatch oid) = some o)
    (hpi : o.stripe_payment_intent_id = some pi)
    (hpaid : o.status = "PAID") :
    totalRevenue store = specRevenue store
    ∧ totalRevenue (orderRefund store oid true).2 = totalRevenue store := by
  constructor
  · unfold totalRevenue specRevenue
    have hfun : ∀ x : Order,
        (!(x.status == "PENDING" || x.status == "CANCELLED"))
          = decide (x.status ≠ "PENDING" ∧ x.status ≠ "CANCELLED") := by
      intro x
      by_cases h1 : x.status = "PENDING" <;> by_cases h2 : x.status = "CANCELLED" <;>
        simp [h1, h2]
    rw [funext hfun]
  · have hst : o.status ≠ "REFUNDED" := by
      rw [hpaid]
      decide
    rw [orderRefund_success_eq store oid o pi hfind hpi hst]
    unfold totalRevenue
    apply sum_filter_updateFirst (idMatch oid) _ _ _ o store.orders hfind
    · rw [hpaid]
      rfl
    · rfl

theorem dashboard_revenue_witness :
    totalRevenue demoPaidStore = specRevenue demoPaidStore
    ∧ totalRevenue (orderRefund demoPaidStore "o1" true).2
        = totalRevenue demoPaidStore :=
  dashboard_revenue demoPaidStore "o1" demoPaidOrder "pi1" (by rfl) (by rfl) (by rfl)

end Eshop
